import Mathlib

/-!
Verification of the panoramic-viewer component (`src/components/PanoramicViewer.tsx`,
variant B with the spherical-percentage hotspot mapping, and the unnamed variant A
file with the perspective-projection hotspot mapping).

The camera state of the component is a `THREE.PerspectiveCamera` of which the code
reads and writes `rotation.x` (pitch), `rotation.y` (yaw), `rotation.z`, and `fov`.
Angles are radians and are modelled as real numbers because the pitch clamp bound is
`Math.PI / 2`; the field of view is in degrees and every operation on it is rational
arithmetic, so it is modelled as a rational number, which keeps those operations
fully evaluable.
-/

namespace VirtualTour

structure Camera where
  rotX : ℝ
  rotY : ℝ
  rotZ : ℝ
  fov  : ℚ

/-- Camera as constructed on mount: `new THREE.PerspectiveCamera(75, aspect, 0.1, 1000)`
with default rotation `(0, 0, 0)`. -/
def defaultCamera : Camera := { rotX := 0, rotY := 0, rotZ := 0, fov := 75 }

/-- `handleMouseMove` (both variants, identical logic): given the pointer deltas of
one mouse-move event while dragging, the handler applies
`rotation.y -= deltaX * 0.005`, `rotation.x -= deltaY * 0.005` and clamps
`rotation.x` to `[-Math.PI / 2, Math.PI / 2]` via `Math.max(-PI/2, Math.min(PI/2, x))`. -/
noncomputable def handleMouseMove (c : Camera) (deltaX deltaY : ℝ) : Camera :=
  let newRotationY := c.rotY - deltaX * 0.005
  let newRotationX := c.rotX - deltaY * 0.005
  { c with
    rotY := newRotationY
    rotX := max (-(Real.pi / 2)) (min (Real.pi / 2) newRotationX) }

/-- A drag sequence: the recorded previous pointer position makes each mouse-move
event contribute its delta `(deltaX, deltaY)`; a sequence of moves is the left fold
of `handleMouseMove` over the list of deltas. -/
noncomputable def applyDrags (c : Camera) (ds : List (ℝ × ℝ)) : Camera :=
  ds.foldl (fun acc d => handleMouseMove acc d.1 d.2) c

/-- `handleWheel` (both variants): `fov = camera.fov + event.deltaY * 0.05;
camera.fov = Math.max(10, Math.min(120, fov))`. -/
def handleWheel (c : Camera) (deltaY : ℚ) : Camera :=
  let fov := c.fov + deltaY * 0.05
  { c with fov := max 10 (min 120 fov) }

/-- `zoomIn` (both variants): `camera.fov = Math.max(10, camera.fov - 10)`. -/
def zoomIn (c : Camera) : Camera :=
  { c with fov := max 10 (c.fov - 10) }

/-- `zoomOut` (both variants): `camera.fov = Math.min(120, camera.fov + 10)`. -/
def zoomOut (c : Camera) : Camera :=
  { c with fov := min 120 (c.fov + 10) }

/-- `resetView` (both variants): `camera.rotation.set(0, 0, 0); camera.fov = 75`. -/
def resetView (_ : Camera) : Camera :=
  { rotX := 0, rotY := 0, rotZ := 0, fov := 75 }

/-- The field-of-view-changing operations reachable from the UI: a scroll-wheel
event with some `deltaY`, the zoom-in button, the zoom-out button, and the reset
button. -/
inductive FovOp where
  | wheel (deltaY : ℚ)
  | zoomIn
  | zoomOut
  | reset

def applyFovOp (c : Camera) : FovOp → Camera
  | .wheel d => handleWheel c d
  | .zoomIn  => zoomIn c
  | .zoomOut => zoomOut c
  | .reset   => resetView c

def applyFovOps (c : Camera) (ops : List FovOp) : Camera :=
  ops.foldl applyFovOp c

/-!
Spherical-to-percentage mapping (variant B, `getScreenPosition`).

JavaScript `%` is the truncated-division remainder, so it is modelled by
`a - b * trunc (a / b)` with truncation toward zero.
-/

/-- Truncation toward zero, as JavaScript division-based remainder uses. -/
def jsTrunc (q : ℚ) : ℤ := if 0 ≤ q then ⌊q⌋ else ⌈q⌉

/-- The JavaScript `%` operator on numbers: `a % b = a - b * trunc (a / b)`. -/
def jsMod (a b : ℚ) : ℚ := a - b * jsTrunc (a / b)

/-- `getScreenPosition` (variant B): treats the first two position components as
longitude/latitude in degrees and returns the CSS percentages
`left = ((longitude + 180) % 360) / 360 * 100` and `top = (90 - latitude) / 180 * 100`,
returned here as the pair `(left, top)` of percentage numbers. -/
def getScreenPosition (longitude latitude : ℚ) : ℚ × ℚ :=
  let x := jsMod (longitude + 180) 360 / 360
  let y := (90 - latitude) / 180
  (x * 100, y * 100)

/-- A hotspot: stable identity, a 3-component position, and a title (the two long
descriptive text fields carry no behavior and are not modelled). -/
structure Hotspot where
  label : String
  position : ℚ × ℚ × ℚ
  title : String

/-- The static hotspot list of variant B (positions and identities as configured). -/
def hotspots : List Hotspot :=
  [ { label := "jersey-display", position := (45, -5, -8),
      title := "Vintage Jerseys Collection" },
    { label := "trophy-case", position := (-90, 10, -6),
      title := "Championship Trophies" },
    { label := "basketball-collection", position := (135, -10, 4),
      title := "Signed Basketball Collection" },
    { label := "poster-gallery", position := (-135, 5, 2),
      title := "Basketball Poster Gallery" } ]

/-- The screen position variant B computes for a hotspot during render: the render
closure has the camera state (`cameraRotation`, the camera itself) in scope but
passes only `hotspot.position[0]` and `hotspot.position[1]` to `getScreenPosition`. -/
def hotspotScreenPos (_cam : Camera) (h : Hotspot) : ℚ × ℚ :=
  getScreenPosition h.position.1 h.position.2.1

/-!
Perspective projection (variant A, `projectToScreen`).

The source computes `vector.project(camera)` — the external rendering library's
view-projection transform — then converts normalized device coordinates to pixels
and sets a visibility flag, exactly as the spec describes: `screenX = (ndcX + 1) *
width / 2`, `screenY = (-ndcY + 1) * height / 2`, `visible = ndcZ < 1`.

The camera sits at the origin (`camera.position.set(0, 0, 0)`), so its world-inverse
transform is a pure rotation; `projectToScreen` is therefore modelled on the
view-space position `v` of the hotspot (the world position expressed in camera
coordinates), and "behind the camera" / "on the forward axis" are conditions on `v`
(the camera looks along the negative view-space z axis). The projection matrix is
the library's standard perspective matrix for `PerspectiveCamera(fov, aspect, near,
far)`; the mount call fixes `near = 0.1` and `far = 1000`.
-/

structure Vec3 where
  x : ℝ
  y : ℝ
  z : ℝ

def nearPlane : ℝ := 0.1

def farPlane : ℝ := 1000

/-- Focal scale of the perspective matrix: `1 / tan(fovDegrees / 2 in radians)`. -/
noncomputable def perspFactor (fovDeg : ℝ) : ℝ :=
  1 / Real.tan (fovDeg * Real.pi / 360)

structure ScreenAnchor where
  x : ℝ
  y : ℝ
  visible : Prop

/-- `projectToScreen` (variant A), on the view-space position `v`: normalized device
coordinates under the library's perspective matrix (clip space divided by `w = -v.z`),
then the source's pixel conversion and the visibility test `ndcZ < 1`. -/
noncomputable def projectToScreen (fovDeg aspect width height : ℝ) (v : Vec3) :
    ScreenAnchor :=
  let f := perspFactor fovDeg
  let w := -v.z
  let ndcX := (f / aspect * v.x) / w
  let ndcY := (f * v.y) / w
  let ndcZ := (-((farPlane + nearPlane) / (farPlane - nearPlane)) * v.z
      - (2 * farPlane * nearPlane) / (farPlane - nearPlane)) / w
  { x := (ndcX + 1) * width / 2
    y := (-ndcY + 1) * height / 2
    visible := ndcZ < 1 }

/-!
Texture-load continuations (both variants, identical logic).

`loader.load(url, onSuccess, undefined, onError)`: the success continuation builds
the sphere mesh, adds it to the scene and clears the loading flag; the error
continuation logs and clears the loading flag without touching the scene.
-/

structure LoadState where
  isLoading : Bool
  sphereInstalled : Bool

/-- Component state when the load is initiated: `useState(true)` for the loading
flag, no sphere in the scene yet. -/
def initialLoadState : LoadState := { isLoading := true, sphereInstalled := false }

/-- Success continuation: `scene.add(sphere); setIsLoading(false)`. -/
def onTextureLoaded (_ : LoadState) : LoadState :=
  { isLoading := false, sphereInstalled := true }

/-- Error continuation: `console.error(...); setIsLoading(false)` — the scene is
not modified. -/
def onTextureError (s : LoadState) : LoadState :=
  { s with isLoading := false }

/-!
## Theorems
-/

/-- Helper: one mouse-move always leaves the stored pitch inside
`[-π/2, π/2]`, because the handler clamps it there. -/
theorem handleMouseMove_rotX_mem (c : Camera) (dx dy : ℝ) :
    (handleMouseMove c dx dy).rotX ∈ Set.Icc (-(Real.pi / 2)) (Real.pi / 2) := by
  have hpi : (0 : ℝ) < Real.pi := Real.pi_pos
  constructor
  · exact le_max_left _ _
  · exact max_le (by linarith) (min_le_left _ _)

/-- C2: for every sequence of pointer-drag moves starting from a pitch in
`[-π/2, π/2]`, the pitch stored after the mouse-move handler has processed the
sequence still lies in `[-π/2, π/2]`, whatever the deltas' magnitudes (and hence
after each individual invocation, applying this to each prefix of the sequence). -/
theorem drag_pitch_invariant (c : Camera) (ds : List (ℝ × ℝ))
    (h : c.rotX ∈ Set.Icc (-(Real.pi / 2)) (Real.pi / 2)) :
    (applyDrags c ds).rotX ∈ Set.Icc (-(Real.pi / 2)) (Real.pi / 2) := by
  induction ds generalizing c with
  | nil => exact h
  | cons d ds ih =>
      exact ih (handleMouseMove c d.1 d.2) (handleMouseMove_rotX_mem c d.1 d.2)

/-- Witness for C2: the default camera's pitch 0 is in range, and after a drag
with a huge downward delta the stored pitch is still in `[-π/2, π/2]`. -/
theorem drag_pitch_invariant_witness :
    defaultCamera.rotX ∈ Set.Icc (-(Real.pi / 2)) (Real.pi / 2) ∧
      (applyDrags defaultCamera [(300, -5000)]).rotX ∈
        Set.Icc (-(Real.pi / 2)) (Real.pi / 2) := by
  have h : defaultCamera.rotX ∈ Set.Icc (-(Real.pi / 2)) (Real.pi / 2) := by
    have hpi : (0 : ℝ) < Real.pi := Real.pi_pos
    constructor <;> simp [defaultCamera] <;> linarith
  exact ⟨h, drag_pitch_invariant defaultCamera [(300, -5000)] h⟩

/-- Helper: each field-of-view operation keeps the field of view in `[10, 120]`. -/
theorem applyFovOp_mem (c : Camera) (op : FovOp) (h1 : 10 ≤ c.fov)
    (h2 : c.fov ≤ 120) : 10 ≤ (applyFovOp c op).fov ∧ (applyFovOp c op).fov ≤ 120 := by
  cases op with
  | wheel d =>
      refine ⟨le_max_left _ _, max_le (by norm_num) (min_le_left _ _)⟩
  | zoomIn =>
      exact ⟨le_max_left _ _, max_le (by norm_num) (by linarith [min_le_left (120 : ℚ) (c.fov - 10)])⟩
  | zoomOut =>
      exact ⟨le_min (by norm_num) (by linarith), min_le_left _ _⟩
  | reset => norm_num [applyFovOp, resetView]

/-- C3: for every sequence of scroll-wheel events (any `deltaY`) and
zoom-in / zoom-out / reset invocations starting from a field of view in
`[10, 120]`, the field of view after the sequence lies in `[10, 120]` (and hence
after each operation, applying this to each prefix of the sequence). -/
theorem fov_ops_invariant (c : Camera) (ops : List FovOp) (h1 : 10 ≤ c.fov)
    (h2 : c.fov ≤ 120) :
    10 ≤ (applyFovOps c ops).fov ∧ (applyFovOps c ops).fov ≤ 120 := by
  induction ops generalizing c with
  | nil => exact ⟨h1, h2⟩
  | cons op ops ih =>
      obtain ⟨g1, g2⟩ := applyFovOp_mem c op h1 h2
      exact ih (applyFovOp c op) g1 g2

/-- Witness for C3: starting from the default 75° field of view, a sequence with
an extreme scroll delta, both zoom buttons, a reset and another extreme scroll
keeps the field of view in `[10, 120]`. -/
theorem fov_ops_invariant_witness :
    10 ≤ defaultCamera.fov ∧ defaultCamera.fov ≤ 120 ∧
      (10 ≤ (applyFovOps defaultCamera
          [.wheel 100000, .zoomIn, .zoomOut, .reset, .wheel (-100000)]).fov ∧
        (applyFovOps defaultCamera
          [.wheel 100000, .zoomIn, .zoomOut, .reset, .wheel (-100000)]).fov ≤ 120) := by
  refine ⟨by norm_num [defaultCamera], by norm_num [defaultCamera], ?_⟩
  exact fov_ops_invariant defaultCamera _ (by norm_num [defaultCamera])
    (by norm_num [defaultCamera])

/-- C1: the variant-B hotspot screen position computed during render depends only
on the hotspot's first two position components: two renders with arbitrary,
distinct camera states (any yaw, pitch, field of view) produce identical screen
percentages for the same hotspot. -/
theorem hotspotScreenPos_camera_independent (cam₁ cam₂ : Camera) (h : Hotspot) :
    hotspotScreenPos cam₁ h = hotspotScreenPos cam₂ h := rfl

/-- C4 counterexample: `getScreenPosition` sends longitude 180° to horizontal
percentage 0, which is not approximately 100 — it is at the full-scale distance
100 from it. -/
theorem getScreenPosition_lon180_is_zero :
    (getScreenPosition 180 0).1 = 0 ∧ |(getScreenPosition 180 0).1 - 100| = 100 := by
  norm_num [getScreenPosition, jsMod, jsTrunc]

/-- C4 amended: longitude −180° maps to horizontal percentage 0; longitude 180°
also maps to horizontal percentage 0 (the `(lon + 180) mod 360` wrap sends 180° to
the same horizontal position as −180°, i.e. the wrap-around of 100%); latitude 90°
maps to vertical percentage 0; latitude −90° maps to vertical percentage 100. -/
theorem getScreenPosition_boundary_values :
    (getScreenPosition (-180) 0).1 = 0 ∧ (getScreenPosition 180 0).1 = 0 ∧
      (getScreenPosition 0 90).2 = 0 ∧ (getScreenPosition 0 (-90)).2 = 100 := by
  norm_num [getScreenPosition, jsMod, jsTrunc]

/-- C7: for a field of view in `[10, 120]`, zoom-in followed by zoom-out returns
it to its prior value whenever the intermediate value was not clamped (it equals
the unclamped 10° step), and symmetrically zoom-out followed by zoom-in. -/
theorem zoom_roundtrip (c : Camera) (h1 : 10 ≤ c.fov) (h2 : c.fov ≤ 120) :
    ((zoomIn c).fov = c.fov - 10 → (zoomOut (zoomIn c)).fov = c.fov) ∧
      ((zoomOut c).fov = c.fov + 10 → (zoomIn (zoomOut c)).fov = c.fov) := by
  constructor
  · intro hin
    show min 120 ((zoomIn c).fov + 10) = c.fov
    rw [hin]
    have : c.fov - 10 + 10 = c.fov := by ring
    rw [this]
    exact min_eq_right h2
  · intro hout
    show max 10 ((zoomOut c).fov - 10) = c.fov
    rw [hout]
    have : c.fov + 10 - 10 = c.fov := by ring
    rw [this]
    exact max_eq_right h1

/-- Witness for C7: at the default 75° field of view neither step clamps, and both
round trips return to 75°. -/
theorem zoom_roundtrip_witness :
    (zoomOut (zoomIn defaultCamera)).fov = defaultCamera.fov ∧
      (zoomIn (zoomOut defaultCamera)).fov = defaultCamera.fov := by
  have h1 : (10 : ℚ) ≤ defaultCamera.fov := by norm_num [defaultCamera]
  have h2 : defaultCamera.fov ≤ 120 := by norm_num [defaultCamera]
  exact ⟨(zoom_roundtrip defaultCamera h1 h2).1 (by norm_num [zoomIn, defaultCamera]),
    (zoom_roundtrip defaultCamera h1 h2).2 (by norm_num [zoomOut, defaultCamera])⟩

/-- C8: the reset operation yields yaw 0, pitch 0 and field of view 75 from every
prior camera state. -/
theorem resetView_defaults (c : Camera) :
    (resetView c).rotY = 0 ∧ (resetView c).rotX = 0 ∧ (resetView c).fov = 75 :=
  ⟨rfl, rfl, rfl⟩

/-- C10: the scroll-wheel handler and the zoom-in and zoom-out operations change
only the field of view — the camera's pitch (`rotation.x`) and yaw (`rotation.y`)
are unchanged by each of them, from every camera state. -/
theorem fov_ops_preserve_rotation (c : Camera) (d : ℚ) :
    (handleWheel c d).rotX = c.rotX ∧ (handleWheel c d).rotY = c.rotY ∧
      (zoomIn c).rotX = c.rotX ∧ (zoomIn c).rotY = c.rotY ∧
      (zoomOut c).rotX = c.rotX ∧ (zoomOut c).rotY = c.rotY :=
  ⟨rfl, rfl, rfl, rfl, rfl, rfl⟩

/-- C5: a point strictly behind the camera (positive view-space z, the camera
looking along negative z) is projected with `visible = false`: its normalized
device depth exceeds 1, for every field of view, aspect ratio and canvas size. -/
theorem projectToScreen_behind_invisible (fovDeg aspect width height : ℝ)
    (v : Vec3) (hz : 0 < v.z) :
    ¬ (projectToScreen fovDeg aspect width height v).visible := by
  show ¬ ((-((farPlane + nearPlane) / (farPlane - nearPlane)) * v.z
      - (2 * farPlane * nearPlane) / (farPlane - nearPlane)) / (-v.z) < 1)
  rw [not_lt, le_div_iff_of_neg (by linarith : -v.z < 0)]
  rw [nearPlane, farPlane]
  nlinarith [hz]

/-- Witness for C5: the view-space point `(3, 4, 5)` lies behind the camera and is
projected invisible (field of view 75°, aspect 2, canvas 800×600). -/
theorem projectToScreen_behind_invisible_witness :
    ¬ (projectToScreen 75 2 800 600 ⟨3, 4, 5⟩).visible :=
  projectToScreen_behind_invisible 75 2 800 600 ⟨3, 4, 5⟩ (by norm_num)

/-- C6: a point exactly on the camera's forward axis (view-space x = y = 0,
negative z) within the view frustum's depth range (nearer than the far plane at
1000) projects to the canvas center `(width / 2, height / 2)` with
`visible = true`, for every field of view, aspect ratio and canvas size. -/
theorem projectToScreen_forward_center (fovDeg aspect width height : ℝ)
    (v : Vec3) (hx : v.x = 0) (hy : v.y = 0) (hfront : v.z < 0)
    (hfar : -1000 < v.z) :
    (projectToScreen fovDeg aspect width height v).x = width / 2 ∧
      (projectToScreen fovDeg aspect width height v).y = height / 2 ∧
      (projectToScreen fovDeg aspect width height v).visible := by
  refine ⟨?_, ?_, ?_⟩
  · show (perspFactor fovDeg / aspect * v.x / (-v.z) + 1) * width / 2 = width / 2
    rw [hx]
    ring
  · show (-(perspFactor fovDeg * v.y / (-v.z)) + 1) * height / 2 = height / 2
    rw [hy]
    ring
  · show (-((farPlane + nearPlane) / (farPlane - nearPlane)) * v.z
      - (2 * farPlane * nearPlane) / (farPlane - nearPlane)) / (-v.z) < 1
    rw [div_lt_one (by linarith : (0 : ℝ) < -v.z)]
    rw [nearPlane, farPlane]
    nlinarith [hfront, hfar]

/-- Witness for C6: the view-space point `(0, 0, -100)` is on the forward axis
inside the frustum and projects to the center of a 1920×1080 canvas, visible
(field of view 75°, aspect 16/9). -/
theorem projectToScreen_forward_center_witness :
    (projectToScreen 75 (16 / 9) 1920 1080 ⟨0, 0, -100⟩).x = 1920 / 2 ∧
      (projectToScreen 75 (16 / 9) 1920 1080 ⟨0, 0, -100⟩).y = 1080 / 2 ∧
      (projectToScreen 75 (16 / 9) 1920 1080 ⟨0, 0, -100⟩).visible :=
  projectToScreen_forward_center 75 (16 / 9) 1920 1080 ⟨0, 0, -100⟩
    rfl rfl (by norm_num) (by norm_num)

/-- C9: from the state in which the load was initiated (loading flag set, no
sphere in the scene), the error continuation clears the loading flag and installs
no sphere, and the success continuation installs the sphere and clears the
loading flag. -/
theorem texture_load_continuations :
    (onTextureError initialLoadState).isLoading = false ∧
      (onTextureError initialLoadState).sphereInstalled = false ∧
      (onTextureLoaded initialLoadState).sphereInstalled = true ∧
      (onTextureLoaded initialLoadState).isLoading = false :=
  ⟨rfl, rfl, rfl, rfl⟩

end VirtualTour
